import Mathlib

/-
  Verification development for the pedestrians-video-2-carla projection core.

  Shallow embedding of:
  - modules/layers/projection.py  (ProjectionModule: shape gate, pose-changes
    recurrence, relative-rotation loop, world accumulators, per-frame camera loop)
  - data/carla/carla_2d3d_dataset.py  (Carla2D3DIterableDataset.generate_batch
    confidence-channel overwrite)
  - walker_control/pose_projection.py  (PoseProjection.current_pose_to_points
    coordinate-system correction and the imageFromSpace call)
  - data/mixed/mixed_dataset.py  (MixedDataset.__getitem__ metadata fill-in)

  Tensors are modelled over ℚ; batched per-frame slices are kept generic where
  the Python code only threads them through (the pose object, the camera), so
  the theorems hold for every instantiation of those collaborators.
-/

namespace PedVid2Carla

/-- 3-vector over ℚ, modelling a torch tensor of shape (3,). -/
abbrev Vec3 := ℚ × ℚ × ℚ

/-- 3×3 matrix over ℚ as three rows, modelling a torch tensor of shape (3, 3). -/
abbrev Mat3 := Vec3 × Vec3 × Vec3

/-- torch.zeros(3): the all-zero vector. -/
def zeroVec3 : Vec3 := (0, 0, 0)

/-- torch.eye(3): the identity rotation matrix. -/
def eye3 : Mat3 := ((1, 0, 0), (0, 1, 0), (0, 0, 1))

/-! ### ProjectionModule._calculate_abs_from_pose_changes (projection.py lines 163-183)

`C` is the per-frame batched pose-change slice `pose_inputs_batch[:, i]`,
`RL`/`RR` the batched relative location/rotation tensors, `A`/`R` the batched
per-frame absolute location/rotation slices.  `fwd` is the bound method
`pose.forward(change, prev_relative_loc, prev_relative_rot)` returning
`(absolute_loc, absolute_rot, new_relative_rot)`; the source loops
`for i in range(clip_length)` threading `prev_relative_rot` through the calls
while `prev_relative_loc` stays fixed at the reference tensors. -/

def calculate_abs_from_pose_changes {C RL RR A R : Type}
    (fwd : C → RL → RR → A × R × RR) (refLoc : RL) :
    RR → List C → List (A × R)
  | _, [] => []
  | prevRot, c :: cs =>
    let out := fwd c refLoc prevRot
    (out.1, out.2.1) :: calculate_abs_from_pose_changes fwd refLoc out.2.2 cs

/-- The relative-rotation state after feeding a list of changes through the
`pose.forward` recurrence, starting from a given rotation: the value of
`prev_relative_rot` at the top of the loop body for the next frame. -/
def rel_rot_after {C RL RR A R : Type}
    (fwd : C → RL → RR → A × R × RR) (refLoc : RL) :
    RR → List C → RR
  | r, [] => r
  | r, c :: cs => rel_rot_after fwd refLoc (fwd c refLoc r).2.2 cs

/-! ### ProjectionModule._calculate_abs_from_relative_rot (projection.py lines 140-161)

The source loops `for i in range(clip_length)` writing
`absolute_loc[:, i], absolute_rot[:, i] = pose.relative_to_absolute(prev_relative_loc, pose_inputs_batch[:, i])`;
no state is carried between iterations and `prev_relative_loc` is the fixed
reference tensor. -/

def calculate_abs_from_relative_rot {RL RR A R : Type}
    (relative_to_absolute : RL → RR → A × R) (refLoc : RL) :
    List RR → List (A × R)
  | [] => []
  | c :: cs =>
    relative_to_absolute refLoc c :: calculate_abs_from_relative_rot relative_to_absolute refLoc cs

/-! ### List helper lemmas -/

theorem take_succ_get_eq {α : Type} {l l' : List α} {t : Nat}
    (h : l.take (t + 1) = l'.take (t + 1)) : l.get? t = l'.get? t := by
  induction t generalizing l l' with
  | zero =>
    cases l with
    | nil => cases l' with
      | nil => rfl
      | cons b bs => simp [List.take] at h
    | cons a as => cases l' with
      | nil => simp [List.take] at h
      | cons b bs =>
        simp [List.take] at h
        simp [List.get?, h]
  | succ n ih =>
    cases l with
    | nil => cases l' with
      | nil => rfl
      | cons b bs => simp [List.take] at h
    | cons a as => cases l' with
      | nil => simp [List.take] at h
      | cons b bs =>
        simp [List.take] at h
        simpa [List.get?] using ih h.2

theorem take_succ_take_eq {α : Type} {l l' : List α} {t : Nat}
    (h : l.take (t + 1) = l'.take (t + 1)) : l.take t = l'.take t := by
  induction t generalizing l l' with
  | zero => simp [List.take]
  | succ n ih =>
    cases l with
    | nil => cases l' with
      | nil => rfl
      | cons b bs => simp [List.take] at h
    | cons a as => cases l' with
      | nil => simp [List.take] at h
      | cons b bs =>
        simp [List.take] at h
        simp [List.take, h.1, ih h.2]

/-- Frame `t` of the pose-changes recurrence equals a single `pose.forward`
call on the frame-`t` change, the fixed reference relative location, and the
relative rotation accumulated from the changes of frames `0..t-1`. -/
theorem calculate_abs_from_pose_changes_get {C RL RR A R : Type}
    (fwd : C → RL → RR → A × R × RR) (refLoc : RL) (refRot : RR)
    (cs : List C) (t : Nat) :
    (calculate_abs_from_pose_changes fwd refLoc refRot cs).get? t =
      (cs.get? t).map
        (fun c =>
          let out := fwd c refLoc (rel_rot_after fwd refLoc refRot (cs.take t))
          (out.1, out.2.1)) := by
  induction t generalizing cs refRot with
  | zero =>
    cases cs with
    | nil => rfl
    | cons c rest => rfl
  | succ n ih =>
    cases cs with
    | nil => rfl
    | cons c rest =>
      simpa [calculate_abs_from_pose_changes, List.get?, List.take, rel_rot_after]
        using ih (fwd c refLoc refRot).2.2 rest

theorem calculate_abs_from_relative_rot_get {RL RR A R : Type}
    (relative_to_absolute : RL → RR → A × R) (refLoc : RL)
    (cs : List RR) (i : Nat) :
    (calculate_abs_from_relative_rot relative_to_absolute refLoc cs).get? i =
      (cs.get? i).map (relative_to_absolute refLoc) := by
  induction i generalizing cs with
  | zero =>
    cases cs with
    | nil => rfl
    | cons c rest => rfl
  | succ n ih =>
    cases cs with
    | nil => rfl
    | cons c rest =>
      simpa [calculate_abs_from_relative_rot, List.get?] using ih rest

/-- Claim C1: in pose-changes mode, for every batch of rotation-change inputs,
the absolute pose is produced by the pose forward recurrence once per frame in
increasing frame order: frame t of the output is a single forward call that
receives the frame-t change, the fixed reference relative location, and the
relative rotation accumulated from the changes of frames 0..t-1 — exactly the
rotation returned by the previous call, with frame 0 receiving the pedestrians'
reference relative rotation (the accumulated state over the empty prefix);
consequently frame t's absolute location and rotation depend only on the
changes at frames 0..t (two change sequences agreeing on frames 0..t give the
same frame-t output). -/
theorem C1_pose_changes_recurrence {C RL RR A R : Type}
    (fwd : C → RL → RR → A × R × RR) (refLoc : RL) (refRot : RR)
    (cs cs' : List C) (t : Nat)
    (hpre : cs.take (t + 1) = cs'.take (t + 1)) :
    ((calculate_abs_from_pose_changes fwd refLoc refRot cs).get? t =
      (cs.get? t).map
        (fun c =>
          let out := fwd c refLoc (rel_rot_after fwd refLoc refRot (cs.take t))
          (out.1, out.2.1)))
    ∧ (calculate_abs_from_pose_changes fwd refLoc refRot cs).get? t =
        (calculate_abs_from_pose_changes fwd refLoc refRot cs').get? t
    ∧ rel_rot_after fwd refLoc refRot [] = refRot := by
  refine ⟨calculate_abs_from_pose_changes_get fwd refLoc refRot cs t, ?_, rfl⟩
  rw [calculate_abs_from_pose_changes_get, calculate_abs_from_pose_changes_get,
    take_succ_get_eq hpre, take_succ_take_eq hpre]

/-- Concrete stand-in for the bound method pose.forward used to exercise the
generic recurrence theorems on computable data. -/
def fwdNat : Nat → Nat → Nat → Nat × Nat × Nat :=
  fun c l r => (c + l + r, c * r, c + 2 * r)

theorem C1_pose_changes_recurrence_witness :
    (([1, 2, 5] : List Nat).take 2 = ([1, 2, 7] : List Nat).take 2)
    ∧ (calculate_abs_from_pose_changes fwdNat 0 1 [1, 2, 5]).get? 1 =
        (calculate_abs_from_pose_changes fwdNat 0 1 [1, 2, 7]).get? 1 :=
  ⟨by decide, (C1_pose_changes_recurrence fwdNat 0 1 [1, 2, 5] [1, 2, 7] 1 (by decide)).2.1⟩

/-- Claim C10: in relative-rotation mode, frames are mutually independent —
frame i of the output is relative-to-absolute applied to the fixed reference
relative locations and only the frame-i rotations, so two inputs that agree at
frame i produce identical frame-i outputs regardless of the other frames. -/
theorem C10_relative_rot_frame_independence {RL RR A R : Type}
    (relative_to_absolute : RL → RR → A × R) (refLoc : RL)
    (cs cs' : List RR) (i : Nat) (h : cs.get? i = cs'.get? i) :
    ((calculate_abs_from_relative_rot relative_to_absolute refLoc cs).get? i =
        (cs.get? i).map (relative_to_absolute refLoc))
    ∧ (calculate_abs_from_relative_rot relative_to_absolute refLoc cs).get? i =
        (calculate_abs_from_relative_rot relative_to_absolute refLoc cs').get? i := by
  refine ⟨calculate_abs_from_relative_rot_get relative_to_absolute refLoc cs i, ?_⟩
  rw [calculate_abs_from_relative_rot_get, calculate_abs_from_relative_rot_get, h]

/-- Concrete stand-in for the bound method pose.relative_to_absolute. -/
def relToAbsNat : Nat → Nat → Nat × Nat :=
  fun l r => (l + r, l * r)

theorem C10_relative_rot_frame_independence_witness :
    (([4, 9, 6] : List Nat).get? 1 = ([8, 9, 2] : List Nat).get? 1)
    ∧ (calculate_abs_from_relative_rot relToAbsNat 3 [4, 9, 6]).get? 1 =
        (calculate_abs_from_relative_rot relToAbsNat 3 [8, 9, 2]).get? 1 :=
  ⟨by decide,
    (C10_relative_rot_frame_independence relToAbsNat 3 [4, 9, 6] [8, 9, 2] 1 (by decide)).2⟩

/-! ### Carla2D3DIterableDataset.generate_batch (carla_2d3d_dataset.py lines 179-192)

After the projection module returns `orig_projection_2d` (whose third channel
still holds whatever pytorch3d left there), the generator overwrites the whole
channel: `orig_projection_2d[..., 2] = 1.0`, before `process_projection_2d` is
applied.  A (batch, clip_length, joints, 3) tensor is modelled as a function of
its indices. -/

def set_confidence_channel {n l j : Nat}
    (t : Fin n → Fin l → Fin j → Fin 3 → ℚ) :
    Fin n → Fin l → Fin j → Fin 3 → ℚ :=
  fun b f p c => if c = 2 then 1 else t b f p c

/-- Claim C2: in generate_batch, right after the overwrite and before any
further projection-2D processing, the third channel of the projection tensor
equals 1.0 at every batch element, frame, and joint, and its value does not
depend on the raw (depth-carrying) projections at all. -/
theorem C2_confidence_channel_is_one {n l j : Nat}
    (raw raw' : Fin n → Fin l → Fin j → Fin 3 → ℚ)
    (b : Fin n) (f : Fin l) (p : Fin j) :
    set_confidence_channel raw b f p 2 = 1
    ∧ set_confidence_channel raw b f p 2 = set_confidence_channel raw' b f p 2 := by
  constructor <;> simp [set_confidence_channel]

/-! ### ProjectionModule._calculate_world_from_loc_rot (projection.py lines 203-214) -/

/-- In location+rotation trajectory mode the accumulator is a pass-through:
`if world_loc_inputs is None` it is replaced by
`torch.zeros((batch_size, clip_length, 3))`, `if world_rot_inputs is None` by
`torch.eye(3)` repeated to `(batch_size, clip_length, 3, 3)`; otherwise the
inputs are returned as-is.  `batch_size` and `clip_length` come from
`absolute_loc.shape`. -/
def calculate_world_from_loc_rot (batchSize clipLength : Nat)
    (worldLocInputs : Option (List (List Vec3)))
    (worldRotInputs : Option (List (List Mat3))) :
    List (List Vec3) × List (List Mat3) :=
  (worldLocInputs.getD (List.replicate batchSize (List.replicate clipLength zeroVec3)),
   worldRotInputs.getD (List.replicate batchSize (List.replicate clipLength eye3)))

theorem get_replicate_of_lt {α : Type} (a : α) :
    ∀ {n i : Nat}, i < n → (List.replicate n a).get? i = some a := by
  intro n
  induction n with
  | zero => intro i h; exact absurd h (Nat.not_lt_zero i)
  | succ m ih =>
    intro i h
    cases i with
    | zero => rfl
    | succ k => simpa [List.replicate, List.get?] using ih (Nat.lt_of_succ_lt_succ h)

/-- Claim C6: in location+rotation trajectory mode the world accumulator is a
pass-through — supplied world location and rotation inputs are returned
unchanged (also when only one of them is supplied), and a missing (None) input
is replaced by the zero-change value: an all-zeros (batch, clip_length, 3)
location and an identity (batch, clip_length, 3, 3) rotation, at every frame
of every batch element. -/
theorem C6_world_loc_rot_passthrough (n L : Nat)
    (wl : List (List Vec3)) (wr : List (List Mat3))
    (b f : Nat) (hb : b < n) (hf : f < L) :
    calculate_world_from_loc_rot n L (some wl) (some wr) = (wl, wr)
    ∧ (calculate_world_from_loc_rot n L none (some wr)).2 = wr
    ∧ (calculate_world_from_loc_rot n L (some wl) none).1 = wl
    ∧ (calculate_world_from_loc_rot n L none none).1.length = n
    ∧ (calculate_world_from_loc_rot n L none none).2.length = n
    ∧ ((calculate_world_from_loc_rot n L none none).1.get? b).bind
        (fun row => row.get? f) = some zeroVec3
    ∧ ((calculate_world_from_loc_rot n L none none).2.get? b).bind
        (fun row => row.get? f) = some eye3 := by
  refine ⟨rfl, rfl, rfl, by simp [calculate_world_from_loc_rot],
    by simp [calculate_world_from_loc_rot], ?_, ?_⟩
  · rw [show (calculate_world_from_loc_rot n L none none).1 =
      List.replicate n (List.replicate L zeroVec3) from rfl]
    rw [get_replicate_of_lt _ hb]
    simpa using get_replicate_of_lt zeroVec3 hf
  · rw [show (calculate_world_from_loc_rot n L none none).2 =
      List.replicate n (List.replicate L eye3) from rfl]
    rw [get_replicate_of_lt _ hb]
    simpa using get_replicate_of_lt eye3 hf

theorem C6_world_loc_rot_passthrough_witness :
    ((0 : Nat) < 2 ∧ (0 : Nat) < 1)
    ∧ ((calculate_world_from_loc_rot 2 1 none none).1.get? 0).bind
        (fun row => row.get? 0) = some zeroVec3 :=
  ⟨⟨by decide, by decide⟩,
    (C6_world_loc_rot_passthrough 2 1 [] [] 0 0 (by decide) (by decide)).2.2.2.2.2.1⟩

/-! ### ProjectionModule.project_pose shape gate (projection.py lines 98-106) -/

/-- modules/base/output_types.py: the MovementsModelOutputType enum values
dispatched on in projection.py. -/
inductive MovementsModelOutputType where
  | pose_changes
  | absolute_loc
  | absolute_loc_rot
  | relative_rot
deriving DecidableEq

/-- The pose_inputs_batch argument of ProjectionModule.project_pose: either a
single tensor (carrying its torch shape, so `ndim = shape.length`) or — for
the absolute-location-with-rotation convention — a tuple of two tensors. -/
inductive PoseInputs (T : Type) where
  | tensor (shape : List Nat) (data : T)
  | pair (locData rotData : T)

/-- The rank/type gate at the top of ProjectionModule.project_pose.  In
Python, evaluating `pose_inputs_batch.ndim` on a tuple while in a
tensor-expecting mode raises AttributeError; that failing attribute read is
modelled as the corresponding error branch. -/
def shape_check {T : Type} :
    MovementsModelOutputType → PoseInputs T → Except String Unit
  | .pose_changes, .tensor shape _ =>
    if shape.length < 5 then
      .error "Pose changes should have shape of (N - batch_size, L - clip_length, B - bones, 3, 3 - rotations as rotation matrices)"
    else .ok ()
  | .pose_changes, .pair _ _ =>
    .error "AttributeError: tuple object has no attribute ndim"
  | .absolute_loc, .tensor shape _ =>
    if shape.length < 4 then
      .error "Absolute location should have shape of (N - batch_size, L - clip_length, B - bones, 3 - absolute location coordinates)"
    else .ok ()
  | .absolute_loc, .pair _ _ =>
    .error "AttributeError: tuple object has no attribute ndim"
  | .absolute_loc_rot, .tensor _ _ =>
    .error "Absolute location with rotation should be a Tuple of tensors."
  | .absolute_loc_rot, .pair _ _ => .ok ()
  | .relative_rot, _ => .ok ()

/-- project_pose up to the composition dispatch: the gate runs first, and only
when it passes is the selected composition strategy applied to the inputs. -/
def project_pose_checked {T Out : Type} (compose : PoseInputs T → Out)
    (m : MovementsModelOutputType) (inp : PoseInputs T) : Except String Out :=
  match shape_check m inp with
  | .error e => .error e
  | .ok _ => .ok (compose inp)

/-- The shape contract as the spec states it, per movements output type
(claim-side definition, to be compared with the code's shape_check): at least
5 dimensions for pose-changes, at least 4 for absolute-location, and a tuple
of tensors for absolute-location-with-rotation. -/
def movementsShapeContractSpec {T : Type} :
    MovementsModelOutputType → PoseInputs T → Bool
  | .pose_changes, .tensor shape _ => 5 ≤ shape.length
  | .pose_changes, .pair _ _ => false
  | .absolute_loc, .tensor shape _ => 4 ≤ shape.length
  | .absolute_loc, .pair _ _ => false
  | .absolute_loc_rot, .tensor _ _ => false
  | .absolute_loc_rot, .pair _ _ => true
  | .relative_rot, _ => true

/-- Claim C3: for the three checked movements output types, project_pose
errors immediately on any input violating the spec's shape contract — before
any composition runs, witnessed by the error being the same for every possible
composition function — and produces no such error (it applies the composition)
whenever the input matches the contract. -/
theorem C3_shape_gate {T : Type} (m : MovementsModelOutputType)
    (inp : PoseInputs T) (hm : m ≠ MovementsModelOutputType.relative_rot) :
    (movementsShapeContractSpec m inp = false →
      ∀ (Out : Type) (compose : PoseInputs T → Out),
        ∃ e, project_pose_checked compose m inp = Except.error e)
    ∧ (movementsShapeContractSpec m inp = true →
      ∀ (Out : Type) (compose : PoseInputs T → Out),
        project_pose_checked compose m inp = Except.ok (compose inp)) := by
  clear hm
  cases m with
  | pose_changes =>
    cases inp with
    | tensor s d =>
      constructor
      · intro hc Out compose
        simp [movementsShapeContractSpec] at hc
        refine ⟨"Pose changes should have shape of (N - batch_size, L - clip_length, B - bones, 3, 3 - rotations as rotation matrices)", ?_⟩
        simp [project_pose_checked, shape_check, hc]
      · intro hc Out compose
        simp [movementsShapeContractSpec] at hc
        simp [project_pose_checked, shape_check, show ¬ s.length < 5 by omega]
    | pair a b =>
      exact ⟨fun _ Out compose => ⟨_, rfl⟩,
        fun hc => by simp [movementsShapeContractSpec] at hc⟩
  | absolute_loc =>
    cases inp with
    | tensor s d =>
      constructor
      · intro hc Out compose
        simp [movementsShapeContractSpec] at hc
        refine ⟨"Absolute location should have shape of (N - batch_size, L - clip_length, B - bones, 3 - absolute location coordinates)", ?_⟩
        simp [project_pose_checked, shape_check, hc]
      · intro hc Out compose
        simp [movementsShapeContractSpec] at hc
        simp [project_pose_checked, shape_check, show ¬ s.length < 4 by omega]
    | pair a b =>
      exact ⟨fun _ Out compose => ⟨_, rfl⟩,
        fun hc => by simp [movementsShapeContractSpec] at hc⟩
  | absolute_loc_rot =>
    cases inp with
    | tensor s d =>
      exact ⟨fun _ Out compose => ⟨_, rfl⟩,
        fun hc => by simp [movementsShapeContractSpec] at hc⟩
    | pair a b =>
      exact ⟨fun hc => by simp [movementsShapeContractSpec] at hc,
        fun _ Out compose => rfl⟩
  | relative_rot =>
    exact ⟨fun hc => by cases inp <;> simp [movementsShapeContractSpec] at hc,
      fun _ Out compose => by cases inp <;> rfl⟩

theorem C3_shape_gate_witness :
    (MovementsModelOutputType.pose_changes ≠ MovementsModelOutputType.relative_rot)
    ∧ project_pose_checked (fun x => x) MovementsModelOutputType.pose_changes
        (PoseInputs.tensor [2, 3, 26, 3, 3] ()) =
      Except.ok (PoseInputs.tensor [2, 3, 26, 3, 3] ()) :=
  ⟨by decide,
    (C3_shape_gate MovementsModelOutputType.pose_changes
        (PoseInputs.tensor [2, 3, 26, 3, 3] ()) (by decide)).2 (by decide)
      _ (fun x => x)⟩

/-! ### ProjectionModule.on_batch_start and the per-frame camera loop
(projection.py lines 60-79 and 112-121) -/

/-- The per-batch mutable fields of ProjectionModule, all (re)assigned in
on_batch_start.  `Ped` is the ControlledPedestrian type and `Cam` the
P3dPoseProjection type; both classes live outside src/, so they stay
generic. -/
structure ProjectionModuleState (Ped Cam : Type) where
  pedestrians : List Ped
  poseProjection : Option Cam
  worldLocations : List Vec3
  worldRotations : List Mat3

/-- on_batch_start: one ControlledPedestrian per clip in the batch (built
from the per-index metadata), a single P3dPoseProjection built from
pedestrian 0 (source comment: "only create one - we're assuming that camera
is setup in the same for way for each pedestrian"), all-zero initial world
locations and identity initial world rotations.  Python indexes
`self.__pedestrians[0]`, which fails on an empty batch; `head?` models that
partiality. -/
def on_batch_start {Meta Ped Cam : Type} (mkPed : Meta → Nat → Ped)
    (mkCam : Ped → Cam) (meta : Meta) (batchSize : Nat) :
    ProjectionModuleState Ped Cam :=
  let peds := (List.range batchSize).map (mkPed meta)
  { pedestrians := peds
    poseProjection := peds.head?.map mkCam
    worldLocations := List.replicate batchSize zeroVec3
    worldRotations := List.replicate batchSize eye3 }

/-- The per-frame loop of project_pose: for every frame i,
`projections[:, i] = pose_projection.forward(absolute_loc[:, i], world_loc[:, i], world_rot[:, i])`.
`camF` stands for the bound method of the one pose-projection object. -/
def projection_frames_loop {A WL WR P : Type} (camF : A → WL → WR → P) :
    List A → List WL → List WR → List P
  | a :: restA, l :: restL, r :: restR =>
    camF a l r :: projection_frames_loop camF restA restL restR
  | _, _, _ => []

/-- project_pose viewed as a method on the module state: it reads the single
pose-projection created by on_batch_start, runs the frame loop with it, and
returns the projections together with the state it leaves behind — the method
body assigns none of the module's fields, so that state is the input state
itself. -/
def project_pose_run {Ped Cam A WL WR P : Type}
    (camForward : Cam → A → WL → WR → P)
    (s : ProjectionModuleState Ped Cam)
    (absoluteLoc : List A) (worldLoc : List WL) (worldRot : List WR) :
    Option (List P) × ProjectionModuleState Ped Cam :=
  (s.poseProjection.map
    (fun cam => projection_frames_loop (camForward cam) absoluteLoc worldLoc worldRot),
   s)

theorem projection_frames_loop_get {A WL WR P : Type}
    (camF : A → WL → WR → P) :
    ∀ (la : List A) (ll : List WL) (lr : List WR) (i : Nat),
      (projection_frames_loop camF la ll lr).get? i =
        (match la.get? i, ll.get? i, lr.get? i with
          | some a, some l, some r => some (camF a l r)
          | _, _, _ => none) := by
  intro la
  induction la with
  | nil =>
    intro ll lr i
    cases ll <;> cases lr <;> cases i <;> rfl
  | cons a restA ih =>
    intro ll lr i
    cases ll with
    | nil =>
      cases lr with
      | nil =>
        cases i with
        | zero => rfl
        | succ n =>
          rcases h : restA.get? n with _ | v <;>
            simp [projection_frames_loop, List.get?, h]
      | cons r restR =>
        cases i with
        | zero => rfl
        | succ n =>
          rcases h : restA.get? n with _ | v <;>
            simp [projection_frames_loop, List.get?, h]
    | cons l restL =>
      cases lr with
      | nil =>
        cases i with
        | zero => rfl
        | succ n =>
          rcases h : restA.get? n with _ | v <;>
            rcases h2 : restL.get? n with _ | w <;>
              simp [projection_frames_loop, List.get?, h, h2]
      | cons r restR =>
        cases i with
        | zero => rfl
        | succ n =>
          simpa [projection_frames_loop, List.get?] using ih restL restR n

/-- Claim C4: on_batch_start creates exactly one pose-projection (camera)
object for the batch — built from the pedestrian of batch index 0 — and each
project_pose call projects every frame of every clip through that same
object; the module state returned by project_pose equals the state it was
given, so the camera object is not modified between frames or between clips
within the batch (the external camera forward call is modelled as a pure
function, per the spec's fixed-viewpoint invariant). -/
theorem C4_single_camera_per_batch {Meta Ped Cam A WL WR P : Type}
    (mkPed : Meta → Nat → Ped) (mkCam : Ped → Cam)
    (camForward : Cam → A → WL → WR → P) (meta : Meta) (batchSize : Nat)
    (hb : 0 < batchSize)
    (absoluteLoc : List A) (worldLoc : List WL) (worldRot : List WR) :
    (on_batch_start mkPed mkCam meta batchSize).poseProjection =
        some (mkCam (mkPed meta 0))
    ∧ (project_pose_run camForward (on_batch_start mkPed mkCam meta batchSize)
          absoluteLoc worldLoc worldRot).2 =
        on_batch_start mkPed mkCam meta batchSize
    ∧ ∀ i : Nat,
        (project_pose_run camForward (on_batch_start mkPed mkCam meta batchSize)
            absoluteLoc worldLoc worldRot).1.map (fun ps => ps.get? i) =
          some (match absoluteLoc.get? i, worldLoc.get? i, worldRot.get? i with
                | some a, some l, some r =>
                  some (camForward (mkCam (mkPed meta 0)) a l r)
                | _, _, _ => none) := by
  obtain ⟨m, rfl⟩ : ∃ m, batchSize = m + 1 := ⟨batchSize - 1, by omega⟩
  have hcam : (on_batch_start mkPed mkCam meta (m + 1)).poseProjection =
      some (mkCam (mkPed meta 0)) := by
    simp [on_batch_start, List.range_succ_eq_map]
  refine ⟨hcam, rfl, fun i => ?_⟩
  simp only [project_pose_run, hcam, Option.map_some']
  rw [projection_frames_loop_get]

theorem C4_single_camera_per_batch_witness :
    ((0 : Nat) < 1)
    ∧ (on_batch_start (fun (m i : Nat) => m + i) (fun p => p * 2) 5 1).poseProjection
        = some 10 :=
  ⟨by decide,
    (C4_single_camera_per_batch (fun (m i : Nat) => m + i) (fun p => p * 2)
        (fun (c a l r : Nat) => c + a + l + r) 5 1 (by decide)
        ([] : List Nat) ([] : List Nat) ([] : List Nat)).1⟩

/-! ### PoseProjection.current_pose_to_points coordinate correction
(pose_projection.py lines 257-274) -/

/-- carla.Location over ℚ. -/
structure CtLocation where
  x : ℚ
  y : ℚ
  z : ℚ
deriving DecidableEq

/-- carla.Rotation over ℚ (constructor defaults: pitch=0.0, yaw=0.0,
roll=0.0). -/
structure CtRotation where
  pitch : ℚ
  yaw : ℚ
  roll : ℚ
deriving DecidableEq

/-- carla.Transform. -/
structure CtTransform where
  location : CtLocation
  rotation : CtRotation
deriving DecidableEq

/-- The root-transform correction of current_pose_to_points:
`carla.Transform(location=carla.Location(x=loc.y, y=loc.x, z=loc.z), rotation=carla.Rotation(yaw=-rot.yaw))`;
the Rotation constructor's omitted pitch and roll arguments default to 0. -/
def corrected_root_transform (t : CtTransform) : CtTransform :=
  { location := { x := t.location.y, y := t.location.x, z := t.location.z }
    rotation := { pitch := 0, yaw := -t.rotation.yaw, roll := 0 } }

/-- The per-bone correction applied inside the relativeBones comprehension:
`carla.Location(x=-bone.location.x, y=bone.location.y, z=bone.location.z)`. -/
def corrected_bone_location (b : CtLocation) : CtLocation :=
  { x := -b.x, y := b.y, z := b.z }

/-- The relativeBones comprehension: every absolute bone location receives the
per-bone correction and is then pushed through the corrected root transform
(carla.Transform.transform, an external carla call kept generic here). -/
def relative_bones (applyTf : CtTransform → CtLocation → CtLocation)
    (t : CtTransform) (bones : List CtLocation) : List CtLocation :=
  bones.map (fun b => applyTf (corrected_root_transform t) (corrected_bone_location b))

/-- Counterexample to claim C5 as stated: the correction does NOT leave all
non-yaw rotation coordinates unchanged — for a pedestrian world transform with
pitch 1, the corrected root transform has pitch 0 (the code rebuilds the
rotation from yaw alone), so "the other coordinates are unchanged" fails. -/
theorem C5_counterexample :
    (corrected_root_transform
        { location := { x := 0, y := 0, z := 0 }
          rotation := { pitch := 1, yaw := 0, roll := 0 } }).rotation.pitch = 0
    ∧ (corrected_root_transform
        { location := { x := 0, y := 0, z := 0 }
          rotation := { pitch := 1, yaw := 0, roll := 0 } }).rotation.pitch ≠
        ({ location := { x := 0, y := 0, z := 0 }
           rotation := { pitch := 1, yaw := 0, roll := 0 } : CtTransform}).rotation.pitch := by
  constructor
  · rfl
  · intro h
    simpa [corrected_root_transform] using h

/-- Claim C5 (amended): before projecting, current_pose_to_points applies the
coordinate correction uniformly — the x and y coordinates of the pedestrian's
world-transform location are swapped with z unchanged; the yaw of its rotation
is negated while pitch and roll are reset to 0 (not preserved); and the x
coordinate of every absolute bone location is sign-flipped with y and z
unchanged, this bone correction being applied to every bone of the pose via
the relativeBones map. -/
theorem C5_coordinate_correction
    (applyTf : CtTransform → CtLocation → CtLocation)
    (t : CtTransform) (bones : List CtLocation) (b : CtLocation) (i : Nat) :
    (corrected_root_transform t).location.x = t.location.y
    ∧ (corrected_root_transform t).location.y = t.location.x
    ∧ (corrected_root_transform t).location.z = t.location.z
    ∧ (corrected_root_transform t).rotation.yaw = -t.rotation.yaw
    ∧ (corrected_root_transform t).rotation.pitch = 0
    ∧ (corrected_root_transform t).rotation.roll = 0
    ∧ (corrected_bone_location b).x = -b.x
    ∧ (corrected_bone_location b).y = b.y
    ∧ (corrected_bone_location b).z = b.z
    ∧ (relative_bones applyTf t bones).get? i =
        (bones.get? i).map
          (fun bb => applyTf (corrected_root_transform t) (corrected_bone_location bb)) := by
  refine ⟨rfl, rfl, rfl, rfl, rfl, rfl, rfl, rfl, rfl, ?_⟩
  simp [relative_bones, List.get?_map]

/-! ### MixedDataset.__getitem__ metadata fill-in (mixed_dataset.py lines 65-89) -/

/-- The metadata merge of MixedDataset.__getitem__: for every key of the meta
template, `common_meta[key] = numpy.array([meta[key]], dtype=...).item()` when
the key is present, and otherwise
`numpy.array([numpy.nan], dtype=...).item()` — a NaN default.  `V` is the
metadata value type and `nanValue` the template dtype's NaN item; the dtype
conversion of a present value is the identity on the modelled values. -/
def mixed_getitem_meta {V : Type} (template : List String)
    (meta : String → Option V) (nanValue : V) : List (String × V) :=
  template.map (fun k => (k, (meta k).getD nanValue))

/-- Counterexample to claim C7 as stated: at mixed-dataset access, an instance
whose gender metadata is missing does NOT raise — __getitem__ returns normally
with the NaN default substituted for the missing key (the embedded merge is a
total function with no error outcome, mirroring the source, which has no raise
path). -/
theorem C7_counterexample :
    mixed_getitem_meta ["gender"] (fun _ => (none : Option String)) "nan" =
      [("gender", "nan")] := rfl

/-- Claim C7 (amended): for every instance whose required per-instance
metadata key is missing at mixed-dataset access, MixedDataset.__getitem__
silently substitutes the template dtype's NaN default for that key instead of
raising an error (the raising MissingMetadataError behaviour the spec
describes belongs to the denormalization path, outside this dataset). -/
theorem C7_missing_meta_nan_default {V : Type} (template : List String)
    (meta : String → Option V) (nanValue : V) (k : String)
    (hk : k ∈ template) (hm : meta k = none) :
    (k, nanValue) ∈ mixed_getitem_meta template meta nanValue := by
  have h := List.mem_map_of_mem (fun k => (k, (meta k).getD nanValue)) hk
  simpa [mixed_getitem_meta, hm] using h

theorem C7_missing_meta_nan_default_witness :
    ("gender" ∈ ["age", "gender"])
    ∧ ("gender", "nan") ∈
        mixed_getitem_meta ["age", "gender"] (fun _ => (none : Option String)) "nan" :=
  ⟨by decide,
    C7_missing_meta_nan_default ["age", "gender"] (fun _ => none) "nan" "gender"
      (by decide) rfl⟩

/-! ### Back-point handling in the camera projection
(pose_projection.py lines 267-278) -/

/-- Modelled from the spec: `Camera.imageFromSpace` comes from the external
cameratransform library (and the torch counterpart used by ProjectionModule is
not under src/).  Per the spec, camera projection "fails (or flags) points
that project behind the camera plane unless explicitly configured to include
them": with hide_backpoints set, a behind-camera point is flagged (NaN,
modelled as `none`) instead of being projected; when configured to include
back points, every point is projected. -/
def imageFromSpace {V W : Type} (projectPoint : V → W) (behindCamera : V → Bool)
    (hideBack : Bool) (pts : List V) : List (Option W) :=
  pts.map (fun p => if hideBack && behindCamera p then none else some (projectPoint p))

/-- current_pose_to_points invokes the projection with
`hide_backpoints=False` — the call is explicitly configured to include
behind-camera points (pose_projection.py line 278). -/
def current_pose_to_points_projection {V W : Type} (projectPoint : V → W)
    (behindCamera : V → Bool) (pts : List V) : List (Option W) :=
  imageFromSpace projectPoint behindCamera false pts

/-- Claim C9: projecting 3D joints flags every point that lies behind the
camera plane (it becomes NaN/none rather than a projected coordinate) unless
the call is explicitly configured to include such points, in which case every
point — behind the camera or not — is projected; and the repository's
current_pose_to_points call is exactly the explicitly-configured-to-include
invocation. -/
theorem C9_backpoints_flagged_unless_included {V W : Type}
    (projectPoint : V → W) (behindCamera : V → Bool) (pts : List V)
    (i : Nat) (p : V) (hp : pts.get? i = some p) :
    (behindCamera p = true →
      (imageFromSpace projectPoint behindCamera true pts).get? i = some none)
    ∧ (imageFromSpace projectPoint behindCamera false pts).get? i =
        some (some (projectPoint p))
    ∧ current_pose_to_points_projection projectPoint behindCamera pts =
        imageFromSpace projectPoint behindCamera false pts := by
  have hp2 : pts[i]? = some p := by
    simpa [List.get?_eq_getElem?] using hp
  refine ⟨fun hb => ?_, ?_, rfl⟩
  · simp only [imageFromSpace, List.getElem?_map, List.get?_eq_getElem?, hp2,
      Option.map_some', hb, Bool.true_and, if_pos]
  · simp only [imageFromSpace, List.getElem?_map, List.get?_eq_getElem?, hp2,
      Option.map_some', Bool.false_and, if_neg, Bool.false_eq_true,
      not_false_eq_true]

theorem C9_backpoints_flagged_unless_included_witness :
    (([(-1 : ℤ), 4].get? 0 = some (-1))
      ∧ (fun q : ℤ => decide (q < 0)) (-1) = true)
    ∧ (imageFromSpace (fun q : ℤ => q * q) (fun q => decide (q < 0)) true
        [(-1 : ℤ), 4]).get? 0 = some none :=
  ⟨⟨rfl, by decide⟩,
    (C9_backpoints_flagged_unless_included (fun q : ℤ => q * q)
        (fun q => decide (q < 0)) [(-1 : ℤ), 4] 0 (-1) rfl).1 (by decide)⟩

/-! ### project_pose end-to-end in the default (pose-changes, changes) modes
(projection.py lines 98-122) -/

/-- Cumulative composition of per-frame deltas: output t is the accumulated
value after folding deltas 0..t onto the initial value. -/
def accumulate {A B : Type} (op : A → B → A) : A → List B → List A
  | _, [] => []
  | a, b :: bs => op a b :: accumulate op (op a b) bs

/-- Modelled from the spec: `calculate_world_from_changes`
(walker_control/torch/world.py) is imported by projection.py but its source is
not under src/.  Spec section 3 / 4.3: `world_rot[t] = world_rot[t-1] · Δrot[t]`
and `world_loc[t] = world_loc[t-1] + Δloc[t]`, accumulated from the initial
per-batch values, and a missing (None) changes tensor means zero change (zero
Δloc, identity Δrot) at each of the clip_length frames. -/
def calculate_world_from_changes {WL WR : Type} (clipLength : Nat)
    (locChanges : Option (List WL)) (rotChanges : Option (List WR))
    (loc0 : WL) (rot0 : WR) (addLoc : WL → WL → WL) (mulRot : WR → WR → WR)
    (zeroLocChange : WL) (idRotChange : WR) : List WL × List WR :=
  (accumulate addLoc loc0 (locChanges.getD (List.replicate clipLength zeroLocChange)),
   accumulate mulRot rot0 (rotChanges.getD (List.replicate clipLength idRotChange)))

/-- project_pose in the default configuration (pose-changes movements output
type, changes trajectory output type): the rank gate, then
_calculate_abs_from_pose_changes, then the world accumulator over the clip
length, then the per-frame camera projection loop; it returns the projections,
the absolute pose, and the world placement.  `camF` stands for the bound
method self.__pose_projection.forward. -/
def project_pose_pose_changes {C RL RR A R WL WR P : Type}
    (fwd : C → RL → RR → A × R × RR) (camF : A → WL → WR → P)
    (refLoc : RL) (refRot : RR) (loc0 : WL) (rot0 : WR)
    (addLoc : WL → WL → WL) (mulRot : WR → WR → WR)
    (zeroLocChange : WL) (idRotChange : WR)
    (shape : List Nat) (frames : List C)
    (worldLocChanges : Option (List WL)) (worldRotChanges : Option (List WR)) :
    Except String (List P × List (A × R) × List WL × List WR) :=
  if shape.length < 5 then
    Except.error "Pose changes should have shape of (N - batch_size, L - clip_length, B - bones, 3, 3 - rotations as rotation matrices)"
  else
    let absolute := calculate_abs_from_pose_changes fwd refLoc refRot frames
    let world := calculate_world_from_changes frames.length worldLocChanges
      worldRotChanges loc0 rot0 addLoc mulRot zeroLocChange idRotChange
    Except.ok
      (projection_frames_loop camF (absolute.map Prod.fst) world.1 world.2,
        absolute, world.1, world.2)

/-- Counterexample to claim C8 as stated: a pose-changes input of correct rank
5 with clip-length dimension 0 (shape (1, 0, 26, 3, 3), hence an empty frame
sequence) does NOT make the projection pipeline raise — project_pose runs its
frame loops zero times and returns successfully with empty projections,
absolute pose, and world placement. -/
theorem C8_counterexample :
    project_pose_pose_changes fwdNat (fun a l r : Nat => a + l + r) 0 1 0 1
      Nat.add Nat.mul 0 1 [1, 0, 26, 3, 3] ([] : List Nat) none none =
      Except.ok ([], [], [], []) := rfl

/-- Claim C8 (amended): for every pose-changes input whose clip-length
dimension is zero (an empty frame sequence, with the rank-5 shape contract
satisfied and world-change inputs empty or absent), project_pose raises no
error: it returns an empty projection list, empty absolute pose, and empty
world placement. -/
theorem C8_zero_length_clip_no_error {C RL RR A R WL WR P : Type}
    (fwd : C → RL → RR → A × R × RR) (camF : A → WL → WR → P)
    (refLoc : RL) (refRot : RR) (loc0 : WL) (rot0 : WR)
    (addLoc : WL → WL → WL) (mulRot : WR → WR → WR)
    (zeroLocChange : WL) (idRotChange : WR) (shape : List Nat)
    (worldLocChanges : Option (List WL)) (worldRotChanges : Option (List WR))
    (h5 : 5 ≤ shape.length)
    (hl : worldLocChanges.getD [] = [])
    (hr : worldRotChanges.getD [] = []) :
    project_pose_pose_changes fwd camF refLoc refRot loc0 rot0 addLoc mulRot
      zeroLocChange idRotChange shape [] worldLocChanges worldRotChanges =
      Except.ok ([], [], [], []) := by
  unfold project_pose_pose_changes
  rw [if_neg (by omega)]
  cases worldLocChanges with
  | none =>
    cases worldRotChanges with
    | none => rfl
    | some wrc =>
      simp only [Option.getD_some] at hr
      subst hr
      rfl
  | some wlc =>
    simp only [Option.getD_some] at hl
    subst hl
    cases worldRotChanges with
    | none => rfl
    | some wrc =>
      simp only [Option.getD_some] at hr
      subst hr
      rfl

theorem C8_zero_length_clip_no_error_witness :
    ((5 : Nat) ≤ ([2, 0, 26, 3, 3] : List Nat).length
      ∧ (some ([] : List Nat)).getD [] = []
      ∧ (none : Option (List Nat)).getD [] = [])
    ∧ project_pose_pose_changes fwdNat (fun a l r : Nat => a * l + r) 0 1 0 1
        Nat.add Nat.mul 0 1 [2, 0, 26, 3, 3] ([] : List Nat)
        (some []) none =
        Except.ok ([], [], [], []) :=
  ⟨⟨by decide, rfl, rfl⟩,
    C8_zero_length_clip_no_error fwdNat (fun a l r : Nat => a * l + r) 0 1 0 1
      Nat.add Nat.mul 0 1 [2, 0, 26, 3, 3] (some []) none (by decide) rfl rfl⟩

end PedVid2Carla
